import Mathlib

/-!
# Verification of the SentientAI diagnostic workflow core

A shallow embedding, in Lean 4, of the orchestration core and the two tool
backends of the SentientAI repository:

* `agents/orchestrator.py` — `Orchestrator.run_diagnostic_workflow`, the
  stateful plan/execute/replan/human-gate/synthesize loop over a shared
  `DiagnosticState`;
* `scada/scada_query_tool.py` — `query_scada` and its helpers;
* `manual/manual_search_tool.py` — `ManualSearchTool.search` and
  `_preprocess_query`.

The four workflow agents (Planner, Executor, Replanner, Synthesizer) are not
part of the sources; the orchestrator treats each as a black box returning a
partial state update. The embedding therefore parametrises the loop over an
`AgentBehavior` record of arbitrary functions, one per agent call site, and
over a stream of human gate decisions. Python dictionary "partial updates"
become records of `Option` fields; Python string truthiness (`not
state["response"]`) becomes comparison with `""`; the unbounded `while` loop
becomes a fuel-indexed recursion returning `none` when the fuel runs out
while the loop condition still holds (so `isSome` expresses termination).
Each agent call is logged in a trace of `AgentCall` tags so that claims of
the form "no further agent calls occur" are statements about the trace.
-/

/-! ## Diagnostic state and agent interfaces (agents/orchestrator.py) -/

/-- The shared mutable record threaded through every step
(`DiagnosticState` in the Python sources). `response = ""` plays the role
of Python's falsy empty string. -/
structure DiagnosticState where
  input : String
  plan : List String
  past_steps : List (String × String)
  response : String
  ready_for_synthesis : Bool
deriving Repr, DecidableEq

/-- The partial update returned by `ReplanAgent.decide_next_action`: a Python
dict that may or may not contain each of the three keys.  `none` models an
absent key; `some v` models a present key with value `v` (which may itself be
falsy, e.g. `some []` for an explicitly empty plan update). -/
structure ReplanOutput where
  ready_for_synthesis : Option Bool
  response : Option String
  plan : Option (List String)
deriving Repr, DecidableEq

/-- A classified human directive at the review gate
(`Orchestrator._human_in_the_loop_review` returns one of these four actions;
invalid console input is re-prompted inside the gate and never reaches the
loop, so the loop only ever sees a valid action). -/
inductive HumanDecision where
  | cont
  | synthesize
  | edit (new_plan : List String)
  | quit
deriving Repr, DecidableEq

/-- Tags for the four agent call sites inside `run_diagnostic_workflow`,
collected into a trace in the order the calls happen. -/
inductive AgentCall where
  | planner
  | executor
  | replanner
  | synthesizer
deriving Repr, DecidableEq

/-- The four workflow agents as black boxes, exactly as the orchestrator
consumes them: `create_plan` yields `planner_output.get("plan", [])`,
`execute_step` yields `executor_output.get("past_steps", [])`,
`decide_next_action` yields the replanner's partial update, and
`synthesize_response` yields the value of the `"response"` key when present
(`none` models a reply without that key, which makes the orchestrator fall
back to its fixed synthesis-failure string). -/
structure AgentBehavior where
  create_plan : DiagnosticState → List String
  execute_step : DiagnosticState → List (String × String)
  decide_next_action : DiagnosticState → ReplanOutput
  synthesize_response : DiagnosticState → Option String

/-- "The planner could not create a valid plan. Please try a different query." -/
def plannerFailMsg : String :=
  "The planner could not create a valid plan. Please try a different query."

/-- "Workflow aborted by human." -/
def abortMsg : String := "Workflow aborted by human."

/-- "An error occurred during final synthesis." -/
def synthFailMsg : String := "An error occurred during final synthesis."

/-- The fixed inconclusive-completion fallback text. -/
def inconclusiveMsg : String :=
  "The diagnostic process completed without a final synthesized response. Please review the past steps for information."

/-- `max_iterations = 5`, the loop's safety break. -/
def max_iterations : Nat := 5

/-! ## The loop body, phase by phase -/

/-- Lines 122–124: if the plan is empty at the top of a pass, force
`ready_for_synthesis := true`. -/
def forceReadyIfPlanEmpty (s : DiagnosticState) : DiagnosticState :=
  if s.plan = [] then { s with ready_for_synthesis := true } else s

/-- Line 130: append the executor's returned pairs to `past_steps`
(the executor sees the state *before* the append). -/
def execRecord (B : AgentBehavior) (s : DiagnosticState) : DiagnosticState :=
  { s with past_steps := s.past_steps ++ B.execute_step s }

/-- Line 133: pop the executed head from the plan. -/
def execPop (s : DiagnosticState) : DiagnosticState :=
  { s with plan := s.plan.tail }

/-- Lines 126–134 as a whole: record the result, then pop the head. -/
def execPhase (B : AgentBehavior) (s : DiagnosticState) : DiagnosticState :=
  execPop (execRecord B s)

/-- Lines 122–134: the empty-plan forcing followed by the guarded executor
step; also returns the executor-call trace of the phase. -/
def passExecState (B : AgentBehavior) (s : DiagnosticState) :
    DiagnosticState × List AgentCall :=
  let s0 := forceReadyIfPlanEmpty s
  if s0.plan ≠ [] then (execPhase B s0, [AgentCall.executor]) else (s0, [])

/-- Lines 141–150: merge the replanner's partial update into the state.
The three `if key in replan_output` guards become matches on the `Option`
fields; the final `elif` (an explicitly *present but empty* plan update with
the state neither ready nor answered) forces `ready_for_synthesis := true`. -/
def applyReplan (s : DiagnosticState) (r : ReplanOutput) : DiagnosticState :=
  let s1 := match r.ready_for_synthesis with
    | some b => { s with ready_for_synthesis := b }
    | none => s
  let s2 := match r.response with
    | some t => { s1 with response := t }
    | none => s1
  match r.plan with
  | some p =>
      if p ≠ [] then { s2 with plan := s2.plan ++ p }
      else if s2.ready_for_synthesis = false ∧ s2.response = "" then
        { s2 with ready_for_synthesis := true }
      else s2
  | none => s2

/-- Lines 136–150: call the replanner on the post-executor state and merge. -/
def replanPhase (B : AgentBehavior) (s : DiagnosticState) : DiagnosticState :=
  applyReplan s (B.decide_next_action s)

/-- The state as it stands when the human gate's guard is evaluated in a
pass that starts from `s`: executor phase, then replanner merge. -/
def passReplanState (B : AgentBehavior) (s : DiagnosticState) : DiagnosticState :=
  replanPhase B (passExecState B s).1

/-- The result of one full pass of the `while` loop: the new state, the new
`current_iteration`, how many gate prompts have been consumed so far, whether
the pass executed `break`, and the agent calls the pass made. -/
structure PassResult where
  st : DiagnosticState
  cur : Nat
  gate : Nat
  brk : Bool
  calls : List AgentCall
deriving Repr, DecidableEq

/-- Lines 119–167: one full pass. `human` is the stream of gate decisions,
indexed by how many gate prompts have happened before. `quit` sets the abort
response and breaks; `synthesize` forces the flag; `edit` replaces the plan
wholesale and resets `current_iteration` to 0; `cont` changes nothing. The
gate is skipped when the replan merge left the state ready or answered. -/
def loopBody (B : AgentBehavior) (human : Nat → HumanDecision)
    (s : DiagnosticState) (cur gate : Nat) : PassResult :=
  let pe := passExecState B s
  let s2 := replanPhase B pe.1
  let calls := pe.2 ++ [AgentCall.replanner]
  if s2.ready_for_synthesis = false ∧ s2.response = "" then
    match human gate with
    | HumanDecision.quit =>
        ⟨{ s2 with response := abortMsg }, cur + 1, gate + 1, true, calls⟩
    | HumanDecision.synthesize =>
        ⟨{ s2 with ready_for_synthesis := true }, cur + 1, gate + 1, false, calls⟩
    | HumanDecision.edit np =>
        ⟨{ s2 with plan := np }, 0, gate + 1, false, calls⟩
    | HumanDecision.cont =>
        ⟨s2, cur + 1, gate + 1, false, calls⟩
  else
    ⟨s2, cur + 1, gate, false, calls⟩

/-- Line 118's `while` guard: not ready, no response yet, and iterations
remain. -/
def loopCond (s : DiagnosticState) (cur : Nat) : Bool :=
  !s.ready_for_synthesis && (s.response == "") && decide (cur < max_iterations)

/-- The `while` loop, fuel-indexed.  `none` means the fuel ran out with the
guard still true (the Python loop would have kept going); `some (s, tr)` is
the state at loop exit and the agent-call trace accumulated so far. -/
def runLoop (B : AgentBehavior) (human : Nat → HumanDecision) :
    Nat → DiagnosticState → Nat → Nat → List AgentCall →
    Option (DiagnosticState × List AgentCall)
  | 0, s, cur, _gate, tr => if loopCond s cur then none else some (s, tr)
  | fuel + 1, s, cur, gate, tr =>
      if loopCond s cur then
        let p := loopBody B human s cur gate
        if p.brk then some (p.st, tr ++ p.calls)
        else runLoop B human fuel p.st p.cur p.gate (tr ++ p.calls)
      else some (s, tr)

/-- Lines 169–180: the post-loop synthesis step and fallbacks, returning the
final response together with the completed trace. -/
def finishWorkflow (B : AgentBehavior) (s : DiagnosticState)
    (tr : List AgentCall) : String × List AgentCall :=
  if s.ready_for_synthesis && (s.response == "") then
    ((B.synthesize_response s).getD synthFailMsg, tr ++ [AgentCall.synthesizer])
  else if s.response == "" then (inconclusiveMsg, tr)
  else (s.response, tr)

/-- Lines 97–103: the freshly initialised state. -/
def initState (query : String) : DiagnosticState :=
  { input := query, plan := [], past_steps := [], response := "",
    ready_for_synthesis := false }

/-- `Orchestrator.run_diagnostic_workflow` (lines 92–180): plan once, fail
fast on an empty plan, run the bounded loop, then synthesize or fall back.
Returns the final response string paired with the trace of agent calls, or
`none` if `fuel` passes were not enough for the loop to exit. -/
def run_diagnostic_workflow (B : AgentBehavior) (human : Nat → HumanDecision)
    (fuel : Nat) (initial_query : String) : Option (String × List AgentCall) :=
  let s0 := initState initial_query
  let p := B.create_plan s0
  let s1 := { s0 with plan := p }
  if p = [] then some (plannerFailMsg, [AgentCall.planner])
  else
    match runLoop B human fuel s1 0 0 [AgentCall.planner] with
    | none => none
    | some (s2, tr) => some (finishWorkflow B s2 tr)

/-- Modelled from the spec: `ExecutorAgent.execute_step` is not among the
sources (only the orchestrator that calls it is).  Per the Agent Contract it
"inspects the single head element of `state.plan`" and "returns exactly one
new (step, result) pair wrapped in a sequence to append", the result text
being whatever the dispatched tool produced (here an oracle). -/
def executorSpec (oracle : DiagnosticState → String)
    (s : DiagnosticState) : List (String × String) :=
  [(s.plan.headD "", oracle s)]

/-! ## String helpers shared by both tools

Python string primitives, re-implemented over `List Char` so that every
claim instance evaluates by kernel reduction. -/

/-- Python's `str.lower()` (the inputs here are ASCII). -/
def pyLower (s : String) : String := ⟨s.toList.map Char.toLower⟩

/-- `needle.isPrefixOf` over every tail: `needle` occurs contiguously in
`hay`. -/
def listInfix (needle hay : List Char) : Bool :=
  hay.tails.any (fun t => needle.isPrefixOf t)

/-- Python's `needle in hay` on strings (contiguous substring). -/
def strContains (hay needle : String) : Bool :=
  listInfix needle.toList hay.toList

/-- A single-quote character as a string, for assembling the SQL literals. -/
def squo : String := String.singleton (Char.ofNat 39)

/-! ## scada/scada_query_tool.py -/

/-- The `month_map` dict, in insertion order (Python dicts iterate in
insertion order). -/
def month_map : List (String × String) :=
  [("january", "01"), ("february", "02"), ("march", "03"), ("april", "04"),
   ("may", "05"), ("june", "06"), ("july", "07"), ("august", "08"),
   ("september", "09"), ("october", "10"), ("november", "11"),
   ("december", "12")]

/-- `extract_month`: the number of the first month name (in dict order) that
occurs in `q`, else `none`. -/
def extract_month (q : String) : Option String :=
  (month_map.find? (fun p => strContains q p.1)).map (fun p => p.2)

def pressureWords : List String :=
  ["pressure", "psi", "capper", "compressor", "bar", "leak"]

def temperatureWords : List String :=
  ["temperature", "temp", "celsius", "overheat", "boiler", "furnace", "chiller"]

def vibrationWords : List String :=
  ["vibration", "shake", "hz", "unbalance", "resonance", "oscillation"]

def loadWords : List String :=
  ["load", "power", "grid", "electric", "kw", "average load", "main supply"]

def rpmWords : List String :=
  ["rpm", "rotation", "overspeed", "underspeed", "shaft speed"]

def errorWords : List String :=
  ["error", "anomaly", "fault", "issue", "warning", "alarm", "problem",
   "503", "504", "505"]

/-- Lines 32–43 of `query_scada`: the `if`/`elif` keyword cascade choosing
the base SQL text (`q` is the lowercased question), `none` when no keyword
list matches. -/
def select_query (q : String) : Option String :=
  if pressureWords.any (fun w => strContains q w) then
    some ("SELECT * FROM scada_logs WHERE metric_name=" ++ squo ++ "pressure_psi" ++ squo)
  else if temperatureWords.any (fun w => strContains q w) then
    some ("SELECT * FROM scada_logs WHERE metric_name=" ++ squo ++ "temperature_celsius" ++ squo)
  else if vibrationWords.any (fun w => strContains q w) then
    some ("SELECT * FROM scada_logs WHERE metric_name=" ++ squo ++ "vibration_hz" ++ squo)
  else if loadWords.any (fun w => strContains q w) then
    some ("SELECT AVG(value) as avg_kw FROM scada_logs WHERE metric_name=" ++ squo ++ "load_kw" ++ squo)
  else if rpmWords.any (fun w => strContains q w) then
    some ("SELECT * FROM scada_logs WHERE metric_name=" ++ squo ++ "rpm" ++ squo)
  else if errorWords.any (fun w => strContains q w) then
    some "SELECT * FROM scada_logs WHERE error_code IS NOT NULL"
  else none

/-- Lines 45–51: append the month filter and the `ORDER BY`/`LIMIT` suffix
(or a bare `;` for the aggregate query, recognised — as in the source — by
the substring `"AVG"`). `q` is the lowercased question. -/
def build_query (q : String) : Option String :=
  (select_query q).map (fun qu =>
    let qu1 := match extract_month q with
      | some m =>
          qu ++ " AND strftime(" ++ squo ++ "%m" ++ squo ++ ", timestamp) = "
             ++ squo ++ m ++ squo
      | none => qu
    if strContains qu1 "AVG" then qu1 ++ ";"
    else qu1 ++ " ORDER BY timestamp DESC LIMIT 10;")

/-- What `query_scada` needs from a `pandas` dataframe: whether it is empty
and its `to_string(index=False)` rendering. -/
structure ScadaDf where
  empty : Bool
  to_string : String
deriving Repr, DecidableEq

/-- An HTTP reply as the tool reads it: the status code, the parsed
`choices[0].message.content` used on status 200, and the raw `text` used in
the error branches. -/
structure HttpResponse where
  status_code : Nat
  content : String
  text : String
deriving Repr, DecidableEq

/-- A Groq chat completion request as the tool builds it (model and headers
are fixed constants in the source and carry no information). -/
structure ChatRequest where
  system : String
  user : String
  temperature : Rat
deriving Repr, DecidableEq

/-- The two effectful collaborators of the SCADA tool. Each is fallible:
`read_sql` models `pandas.read_sql` (whose exceptions line 55–58 catches),
and `post` models `requests.post` (which can itself raise, e.g. a connection
error — the source wraps it in no `try`). `Except.error` is a raised Python
exception carrying its message. -/
structure ScadaEnv where
  read_sql : String → Except String ScadaDf
  post : ChatRequest → Except String HttpResponse

/-- `fallback_response` (lines 66–85): one chat completion over the raw
question; a non-200 status becomes an error *string*, but an exception from
`post` itself propagates. -/
def fallback_response (env : ScadaEnv) (nl_question : String) :
    Except String String := do
  let r ← env.post
    { system := "You are a SCADA diagnostics assistant.",
      user := nl_question, temperature := 2/5 }
  if r.status_code = 200 then pure r.content
  else pure ("❌ Groq fallback error: " ++ r.text)

/-- `explain_data_with_llm` (lines 87–106). -/
def explain_data_with_llm (env : ScadaEnv) (data_str : String) :
    Except String String := do
  let r ← env.post
    { system := "You are a helpful diagnostics assistant. Analyze the SCADA data and explain it simply.",
      user := "Explain this data:\n\n" ++ data_str, temperature := 3/10 }
  if r.status_code = 200 then pure r.content
  else pure ("❌ Groq API error: " ++ r.text)

/-- `query_scada` (lines 26–64): lowercase, classify, build the SQL, run it
with the one `try`/`except` the function has, and explain or fall back.
`Except.ok` is a normal string return; `Except.error` is an exception
escaping the function. -/
def query_scada (env : ScadaEnv) (nl_question : String) :
    Except String String :=
  let q := pyLower nl_question
  match build_query q with
  | none => fallback_response env nl_question
  | some query =>
      match env.read_sql query with
      | Except.error e => Except.ok ("❌ SQL Query Error: " ++ e)
      | Except.ok df =>
          if df.empty then Except.ok "⚠️ No data matched your query."
          else explain_data_with_llm env df.to_string

example :
    runLoop
      { create_plan := fun _ => ["a"],
        execute_step := fun s => [(s.plan.headD "", "r")],
        decide_next_action := fun _ => ⟨none, none, none⟩,
        synthesize_response := fun _ => some "S" }
      (fun _ => HumanDecision.cont) 5
      { input := "q", plan := ["a"], past_steps := [], response := "",
        ready_for_synthesis := false } 0 0 [] ≠ none := by decide

example : build_query (pyLower "Average LOAD in May") =
    some ("SELECT AVG(value) as avg_kw FROM scada_logs WHERE metric_name="
      ++ squo ++ "load_kw" ++ squo ++ " AND strftime(" ++ squo ++ "%m" ++ squo
      ++ ", timestamp) = " ++ squo ++ "05" ++ squo ++ ";") := by decide

example : build_query (pyLower "show rpm") =
    some ("SELECT * FROM scada_logs WHERE metric_name=" ++ squo ++ "rpm" ++ squo
      ++ " ORDER BY timestamp DESC LIMIT 10;") := by decide

example : build_query (pyLower "hello there") = none := by decide

/-! ## manual/manual_search_tool.py -/

/-- Python regex `\w` on the ASCII inputs at hand: letters, digits, or
underscore. -/
def wordChar (c : Char) : Bool := c.isAlphanum || c == '_'

/-- `\b` holds to the left of a match position: start of string or a
non-word previous character. -/
def boundaryBefore (prev : Option Char) : Bool :=
  match prev with
  | none => true
  | some c => !wordChar c

/-- `\b` holds to the right of a match: end of string or a non-word next
character. -/
def boundaryAfter : List Char → Bool
  | [] => true
  | c :: _ => !wordChar c

/-- One scan of `re.sub(r'\b' + abbr + r'\b', full, s)` with `abbr = a :: ar`
(all the dictionary keys are non-empty words). The scan walks the input left
to right; at a whole-word occurrence it emits `full` and resumes after the
matched text (the boundary for the next position is judged against the last
character of the *matched original* text, as the regex engine does), and
replaced text is not rescanned by this same rule. `fuel` only drives the
structural recursion; each step consumes at least one input character, so
`fuel = s.length` (what `subWholeWord` passes) never runs out. -/
def subWWAux (a : Char) (ar full : List Char) :
    Nat → Option Char → List Char → List Char
  | 0, _, s => s
  | _ + 1, _, [] => []
  | fuel + 1, prev, c :: rest =>
      if (a :: ar).isPrefixOf (c :: rest) && boundaryBefore prev
          && boundaryAfter (rest.drop ar.length) then
        full ++ subWWAux a ar full fuel (some (ar.getLastD a)) (rest.drop ar.length)
      else
        c :: subWWAux a ar full fuel (some c) rest

/-- `re.sub(r'\b' + abbr + r'\b', full_form, s)` for one dictionary entry. -/
def subWholeWord (abbr full s : String) : String :=
  match abbr.toList with
  | [] => s
  | a :: ar => ⟨subWWAux a ar full.toList s.toList.length none s.toList⟩

/-- The `query_mapping` dict of `_preprocess_query`, in insertion order. -/
def query_mapping : List (String × String) :=
  [("temp", "temperature"),
   ("press", "pressure"),
   ("vib", "vibration"),
   ("rpm", "rotations per minute"),
   ("psi", "pressure"),
   ("err", "error"),
   ("troubleshoot", "troubleshooting diagnosis problem"),
   ("fix", "repair solution troubleshooting"),
   ("alarm", "error alarm warning"),
   ("fault", "error fault problem"),
   ("maintenance", "maintenance service repair"),
   ("calibration", "calibration adjustment setup"),
   ("installation", "installation setup configuration")]

/-- `ManualSearchTool._preprocess_query` (lines 72–91): lowercase, then apply
each whole-word substitution in dictionary order. -/
def preprocess_query (query : String) : String :=
  query_mapping.foldl (fun acc p => subWholeWord p.1 p.2 acc) (pyLower query)

/-- Python's whitespace set for `str.strip()`: space, `\t`, `\n`, `\r`,
vertical tab, form feed. -/
def pyWhitespace (c : Char) : Bool :=
  c == ' ' || c == '\t' || c == '\n' || c == '\r'
    || c == Char.ofNat 11 || c == Char.ofNat 12

/-- Python's `str.strip()`. -/
def pyStrip (s : String) : String :=
  ⟨((s.toList.dropWhile pyWhitespace).reverse.dropWhile pyWhitespace).reverse⟩

/-- A stored document as the vector store hands it back: its text and the
two metadata fields `search` reads (each `none` when the key is missing, in
which case `search` substitutes `"Unknown"`). -/
structure StoreDoc where
  page_content : String
  source_file : Option String
  page_number : Option String
deriving Repr, DecidableEq

/-- One formatted entry of `search`'s return list. Chroma's distance scores
are modelled as rationals, keeping `relevance_score = 1 - score` exact. -/
structure SearchResult where
  content : String
  source : String
  page : String
  relevance_score : Rat
  rank : Nat
deriving Repr, DecidableEq

/-- A metadata filter dict. -/
abbrev MetaFilter := List (String × String)

/-- A record of one `similarity_search_with_score` call: the (preprocessed)
query text, `k`, and the filter actually passed. -/
structure StoreCall where
  query : String
  k : Nat
  filter_metadata : Option MetaFilter
deriving Repr, DecidableEq

/-- `ManualSearchTool.search` (lines 42–70), parametrised over the vector
store (`similarity_search_with_score` as a pure oracle). Returns the
formatted results together with the list of store calls made, so "no
similarity search was performed" is `= []` on the second component. The
Python `filter=filter_metadata if filter_metadata else None` turns a falsy
(empty) dict into `None`. -/
def ManualSearchTool.search
    (store : String → Nat → Option MetaFilter → List (StoreDoc × Rat))
    (query : String) (top_k : Nat) (filter_metadata : Option MetaFilter) :
    List SearchResult × List StoreCall :=
  if pyStrip query = "" then ([], [])
  else
    let processed_query := preprocess_query query
    let filt := match filter_metadata with
      | some f => if f ≠ [] then some f else none
      | none => none
    let results := store processed_query top_k filt
    (results.enum.map (fun p =>
      { content := p.2.1.page_content
        source := p.2.1.source_file.getD "Unknown"
        page := p.2.1.page_number.getD "Unknown"
        relevance_score := 1 - p.2.2
        rank := p.1 + 1 }),
     [{ query := processed_query, k := top_k, filter_metadata := filt }])

example : preprocess_query "check temp now" = "check temperature now" := by decide
example : preprocess_query "temperature" = "temperature" := by decide
example : preprocess_query "Fix the PSI alarm" =
    "repair solution troubleshooting the pressure error alarm warning" := by decide
example : pyStrip "  \t hi \n" = "hi" := by decide

/-! ## Concrete instances used by witnesses and counterexamples -/

/-- A human who always continues. -/
def contHuman : Nat → HumanDecision := fun _ => HumanDecision.cont

/-- A human who quits at the first prompt. -/
def quitHuman : Nat → HumanDecision := fun _ => HumanDecision.quit

/-- The replanner update with all three keys absent (`{}` in Python). -/
def noneReplan : ReplanOutput := ⟨none, none, none⟩

/-- A small concrete agent configuration: fixed initial plan `p`, an executor
matching the Agent Contract, a constant replanner update `r`, and a
synthesizer that answers `"SYNTH"`. -/
def wB (p : List String) (r : ReplanOutput) : AgentBehavior :=
  { create_plan := fun _ => p,
    execute_step := executorSpec (fun _ => "result"),
    decide_next_action := fun _ => r,
    synthesize_response := fun _ => some "SYNTH" }

/-- A mid-run state with pending plan `p` and nothing decided yet. -/
def wState (p : List String) : DiagnosticState :=
  { input := "q", plan := p, past_steps := [], response := "",
    ready_for_synthesis := false }

/-- A SCADA environment whose HTTP client raises on every call (no network),
while the database works. -/
def scadaCexEnv : ScadaEnv :=
  { read_sql := fun _ => Except.ok { empty := false, to_string := "data" },
    post := fun _ => Except.error "ConnectionError" }

/-- A SCADA environment whose HTTP client always answers 200 with body
`"LLM"`, while every database read raises `"boom"`. -/
def scadaOkEnv : ScadaEnv :=
  { read_sql := fun _ => Except.error "boom",
    post := fun _ => Except.ok { status_code := 200, content := "LLM", text := "" } }

/-- The agent-call trace produced by `n` consecutive loop passes in which a
step is executed and the replanner changes nothing: executor then replanner,
`n` times over. -/
def contPassCalls : Nat → List AgentCall
  | 0 => []
  | n + 1 => [AgentCall.executor, AgentCall.replanner] ++ contPassCalls n

/-! ## Helper lemmas -/

theorem execRecord_past (B : AgentBehavior) (s : DiagnosticState) :
    (execRecord B s).past_steps = s.past_steps ++ B.execute_step s := rfl

theorem execPop_past (s : DiagnosticState) :
    (execPop s).past_steps = s.past_steps := rfl

theorem forceReady_past (s : DiagnosticState) :
    (forceReadyIfPlanEmpty s).past_steps = s.past_steps := by
  unfold forceReadyIfPlanEmpty; split <;> rfl

theorem applyReplan_past (s : DiagnosticState) (r : ReplanOutput) :
    (applyReplan s r).past_steps = s.past_steps := by
  rcases r with ⟨rr, rp, pl⟩
  unfold applyReplan
  rcases rr with _ | b <;> rcases rp with _ | t <;> rcases pl with _ | p <;>
    simp <;> split <;> try split
  all_goals rfl

theorem passExecState_past (B : AgentBehavior) (s : DiagnosticState) :
    ∃ t, (passExecState B s).1.past_steps = s.past_steps ++ t := by
  simp only [passExecState]
  split
  · exact ⟨B.execute_step (forceReadyIfPlanEmpty s), by
      simp [execPhase, execPop_past, execRecord_past, forceReady_past]⟩
  · exact ⟨[], by simp [forceReady_past]⟩

theorem loopBody_past (B : AgentBehavior) (human : Nat → HumanDecision)
    (s : DiagnosticState) (cur gate : Nat) :
    ∃ t, (loopBody B human s cur gate).st.past_steps = s.past_steps ++ t := by
  obtain ⟨t, ht⟩ := passExecState_past B s
  have h2 : (replanPhase B (passExecState B s).1).past_steps = s.past_steps ++ t := by
    rw [replanPhase, applyReplan_past, ht]
  refine ⟨t, ?_⟩
  simp only [loopBody]
  split
  · cases human gate <;> simpa using h2
  · simpa using h2

theorem runLoop_past (B : AgentBehavior) (human : Nat → HumanDecision) :
    ∀ (fuel : Nat) (s : DiagnosticState) (cur gate : Nat) (tr : List AgentCall)
      (s' : DiagnosticState) (tr' : List AgentCall),
      runLoop B human fuel s cur gate tr = some (s', tr') →
      ∃ t, s'.past_steps = s.past_steps ++ t := by
  intro fuel
  induction fuel with
  | zero =>
      intro s cur gate tr s' tr' h
      unfold runLoop at h
      split at h
      · exact absurd h (by simp)
      · simp only [Option.some.injEq, Prod.mk.injEq] at h
        exact ⟨[], by rw [← h.1]; simp⟩
  | succ fuel ih =>
      intro s cur gate tr s' tr' h
      simp only [runLoop] at h
      split at h
      · split at h
        · obtain ⟨t, ht⟩ := loopBody_past B human s cur gate
          simp only [Option.some.injEq, Prod.mk.injEq] at h
          exact ⟨t, by rw [← h.1]; exact ht⟩
        · obtain ⟨t2, ht2⟩ := ih _ _ _ _ _ _ h
          obtain ⟨t1, ht1⟩ := loopBody_past B human s cur gate
          exact ⟨t1 ++ t2, by rw [ht2, ht1, List.append_assoc]⟩
      · simp only [Option.some.injEq, Prod.mk.injEq] at h
        exact ⟨[], by rw [← h.1]; simp⟩

theorem loopBody_cur_noEdit (B : AgentBehavior) (human : Nat → HumanDecision)
    (s : DiagnosticState) (cur gate : Nat)
    (h : ∀ g np, human g ≠ HumanDecision.edit np) :
    (loopBody B human s cur gate).cur = cur + 1 := by
  simp only [loopBody]
  split
  · cases hg : human gate with
    | cont => rfl
    | synthesize => rfl
    | quit => rfl
    | edit np => exact absurd hg (h gate np)
  · rfl

theorem runLoop_total (B : AgentBehavior) (human : Nat → HumanDecision)
    (h : ∀ g np, human g ≠ HumanDecision.edit np) :
    ∀ (fuel : Nat) (s : DiagnosticState) (cur gate : Nat) (tr : List AgentCall),
      max_iterations ≤ cur + fuel →
      (runLoop B human fuel s cur gate tr).isSome = true := by
  intro fuel
  induction fuel with
  | zero =>
      intro s cur gate tr hle
      have hd : decide (cur < max_iterations) = false :=
        decide_eq_false (by omega)
      have hc : loopCond s cur = false := by simp [loopCond, hd]
      simp [runLoop, hc]
  | succ fuel ih =>
      intro s cur gate tr hle
      simp only [runLoop]
      split
      · split
        · simp
        · apply ih
          rw [loopBody_cur_noEdit B human s cur gate h]
          omega
      · simp

theorem finishWorkflow_ne_empty (B : AgentBehavior) (s : DiagnosticState)
    (tr : List AgentCall)
    (hSynth : ∀ s' r, B.synthesize_response s' = some r → r ≠ "") :
    (finishWorkflow B s tr).1 ≠ "" := by
  unfold finishWorkflow
  split
  · cases hr : B.synthesize_response s with
    | none => simp [synthFailMsg]
    | some r => simpa using hSynth s r hr
  · split
    · simp [inconclusiveMsg]
    · next h2 =>
        intro heq
        exact h2 (by simpa using heq)

/-! ## Claim theorems -/

/-- Claim C9: Manual-search query normalization applies its abbreviation
dictionary as whole-word substitution only: the rule temp→temperature leaves
the input "temperature" unchanged, and the full preprocessing pipeline sends
"check temp now" to "check temperature now" while leaving "temperature"
untouched. -/
theorem C9_whole_word_only :
    subWholeWord "temp" "temperature" "temperature" = "temperature" ∧
    preprocess_query "temperature" = "temperature" ∧
    preprocess_query "check temp now" = "check temperature now" := by decide

/-- Claim C10: for every query that strips to the empty string,
`ManualSearchTool.search` returns the empty result list and performs no
similarity search against the vector store (empty store-call trace),
regardless of the store, `top_k`, or metadata filter. -/
theorem C10_blank_query_returns_empty
    (store : String → Nat → Option MetaFilter → List (StoreDoc × Rat))
    (query : String) (top_k : Nat) (fm : Option MetaFilter)
    (h : pyStrip query = "") :
    ManualSearchTool.search store query top_k fm = ([], []) := by
  simp only [ManualSearchTool.search]
  simp [h]

theorem C10_witness :
    pyStrip "  \t " = "" ∧
    ManualSearchTool.search (fun _ _ _ => []) "  \t " 5 none = ([], []) :=
  ⟨by decide, C10_blank_query_returns_empty (fun _ _ _ => []) "  \t " 5 none (by decide)⟩

/-- Claim C6: whenever the Planner returns an empty plan,
`run_diagnostic_workflow` returns exactly the fixed planner-failure string,
with the planner as the only agent called (no execution loop, no other
agent), for every human stream and every fuel — in particular on every
invocation. -/
theorem C6_empty_plan_fixed_failure (B : AgentBehavior)
    (human : Nat → HumanDecision) (fuel : Nat) (q : String)
    (h : B.create_plan (initState q) = []) :
    run_diagnostic_workflow B human fuel q
      = some (plannerFailMsg, [AgentCall.planner]) := by
  simp only [run_diagnostic_workflow]
  simp [h]

theorem C6_witness :
    run_diagnostic_workflow (wB [] noneReplan) contHuman 5 "no plan"
      = some (plannerFailMsg, [AgentCall.planner]) :=
  C6_empty_plan_fixed_failure (wB [] noneReplan) contHuman 5 "no plan" rfl

/-- Claim C2 is false on the code: here is a concrete iteration in which the
Replanner returns nothing actionable — the update `{}` with none of the three
keys present — and the Orchestrator does *not* force
`ready_for_synthesis = true`: after the replan merge the state is still not
ready and has no response, and the pass goes on to prompt the human gate
(gate counter 0 → 1) instead of proceeding to synthesis. The forcing branch
of lines 148–150 requires the `plan` key to be present (and empty) in the
update, so an entirely absent `plan` key escapes it. -/
theorem C2_counterexample :
    (wB ["SCADA: a", "MANUAL: b"] noneReplan).decide_next_action
        (passExecState (wB ["SCADA: a", "MANUAL: b"] noneReplan)
          (wState ["SCADA: a", "MANUAL: b"])).1 = noneReplan ∧
    noneReplan.ready_for_synthesis = none ∧
    noneReplan.response = none ∧
    noneReplan.plan = none ∧
    (passReplanState (wB ["SCADA: a", "MANUAL: b"] noneReplan)
        (wState ["SCADA: a", "MANUAL: b"])).ready_for_synthesis = false ∧
    (passReplanState (wB ["SCADA: a", "MANUAL: b"] noneReplan)
        (wState ["SCADA: a", "MANUAL: b"])).response = "" ∧
    (loopBody (wB ["SCADA: a", "MANUAL: b"] noneReplan) contHuman
        (wState ["SCADA: a", "MANUAL: b"]) 0 0).gate = 1 := by decide

/-- Claim C2, amended: the Orchestrator forces `ready_for_synthesis = true`
in the same iteration exactly when the Replanner's update contains the
`plan` key with an empty list (while setting neither `ready_for_synthesis`
nor `response`, with the state not ready and unanswered); when the update
omits the `plan` key altogether, the merge leaves the state completely
unchanged and the run loops on. -/
theorem C2_amended_forcing_needs_explicit_empty_plan
    (s : DiagnosticState) (r : ReplanOutput)
    (h1 : r.ready_for_synthesis = none) (h2 : r.response = none) :
    (r.plan = some [] → s.ready_for_synthesis = false → s.response = "" →
      (applyReplan s r).ready_for_synthesis = true) ∧
    (r.plan = none → applyReplan s r = s) := by
  constructor
  · intro hp hr hresp
    simp [applyReplan, h1, h2, hp, hr, hresp]
  · intro hp
    simp [applyReplan, h1, h2, hp]

theorem C2_amended_witness :
    (applyReplan (wState ["x"]) ⟨none, none, some []⟩).ready_for_synthesis = true ∧
    applyReplan (wState ["x"]) noneReplan = wState ["x"] :=
  ⟨(C2_amended_forcing_needs_explicit_empty_plan (wState ["x"])
      ⟨none, none, some []⟩ rfl rfl).1 rfl rfl rfl,
   (C2_amended_forcing_needs_explicit_empty_plan (wState ["x"])
      noneReplan rfl rfl).2 rfl⟩

/-- Claim C3: in a loop iteration whose plan is non-empty, with the Executor
meeting its contract (exactly one (step, result) pair for the head step —
`executorSpec`, modelled from the spec), the executor phase appends exactly
that one pair to `past_steps` and pops exactly the head from `plan`; and the
recording strictly precedes the pop: the intermediate state `execRecord`
already holds the new pair while the head is still on the plan. -/
theorem C3_pop_one_record_one_in_order (B : AgentBehavior)
    (oracle : DiagnosticState → String) (s : DiagnosticState)
    (hB : B.execute_step = executorSpec oracle) (hp : s.plan ≠ []) :
    (execRecord B s).past_steps = s.past_steps ++ [(s.plan.headD "", oracle s)] ∧
    (execRecord B s).plan = s.plan ∧
    (execPhase B s).past_steps = s.past_steps ++ [(s.plan.headD "", oracle s)] ∧
    (execPhase B s).plan = s.plan.tail ∧
    (execPhase B s).plan.length + 1 = s.plan.length ∧
    passExecState B s = (execPhase B s, [AgentCall.executor]) := by
  have hf : forceReadyIfPlanEmpty s = s := by simp [forceReadyIfPlanEmpty, hp]
  refine ⟨?_, rfl, ?_, rfl, ?_, ?_⟩
  · rw [execRecord_past, hB, executorSpec]
  · show (execRecord B s).past_steps = _
    rw [execRecord_past, hB, executorSpec]
  · cases hpl : s.plan with
    | nil => exact absurd hpl hp
    | cons a l => simp [execPhase, execPop, execRecord, hpl]
  · simp [passExecState, hf, hp]

theorem C3_witness :
    (execRecord (wB ["SCADA: a"] noneReplan) (wState ["SCADA: a"])).past_steps
      = (wState ["SCADA: a"]).past_steps
        ++ [((wState ["SCADA: a"]).plan.headD "", "result")] ∧
    (execRecord (wB ["SCADA: a"] noneReplan) (wState ["SCADA: a"])).plan
      = (wState ["SCADA: a"]).plan ∧
    (execPhase (wB ["SCADA: a"] noneReplan) (wState ["SCADA: a"])).past_steps
      = (wState ["SCADA: a"]).past_steps
        ++ [((wState ["SCADA: a"]).plan.headD "", "result")] ∧
    (execPhase (wB ["SCADA: a"] noneReplan) (wState ["SCADA: a"])).plan
      = (wState ["SCADA: a"]).plan.tail ∧
    (execPhase (wB ["SCADA: a"] noneReplan) (wState ["SCADA: a"])).plan.length + 1
      = (wState ["SCADA: a"]).plan.length ∧
    passExecState (wB ["SCADA: a"] noneReplan) (wState ["SCADA: a"])
      = (execPhase (wB ["SCADA: a"] noneReplan) (wState ["SCADA: a"]),
         [AgentCall.executor]) :=
  C3_pop_one_record_one_in_order (wB ["SCADA: a"] noneReplan)
    (fun _ => "result") (wState ["SCADA: a"]) rfl (by decide)

/-- Claim C4: `past_steps` is append-only across an entire run. Phase by
phase: the executor record step appends, the pop, the empty-plan forcing and
the replan merge leave `past_steps` untouched; every full loop pass (human
gate included — `quit`, `synthesize` and `edit` all preserve `past_steps`)
leaves the prior sequence as a prefix; and across any number of loop passes,
the `past_steps` at loop entry is a prefix of the `past_steps` at loop exit.
Prefix is expressed as `take`-recovery: taking the old length from the new
sequence gives back the old sequence unchanged, so nothing recorded is ever
removed, replaced or reordered. -/
theorem C4_past_steps_append_only :
    (∀ (B : AgentBehavior) (s : DiagnosticState),
      (execRecord B s).past_steps = s.past_steps ++ B.execute_step s) ∧
    (∀ s : DiagnosticState, (execPop s).past_steps = s.past_steps) ∧
    (∀ s : DiagnosticState, (forceReadyIfPlanEmpty s).past_steps = s.past_steps) ∧
    (∀ (s : DiagnosticState) (r : ReplanOutput),
      (applyReplan s r).past_steps = s.past_steps) ∧
    (∀ (B : AgentBehavior) (human : Nat → HumanDecision) (s : DiagnosticState)
      (cur gate : Nat),
      ((loopBody B human s cur gate).st.past_steps.take s.past_steps.length)
        = s.past_steps) ∧
    (∀ (B : AgentBehavior) (human : Nat → HumanDecision) (fuel : Nat)
      (s : DiagnosticState) (cur gate : Nat) (tr : List AgentCall)
      (s2 : DiagnosticState) (tr2 : List AgentCall),
      runLoop B human fuel s cur gate tr = some (s2, tr2) →
      s2.past_steps.take s.past_steps.length = s.past_steps) := by
  refine ⟨execRecord_past, execPop_past, forceReady_past, applyReplan_past, ?_, ?_⟩
  · intro B human s cur gate
    obtain ⟨t, ht⟩ := loopBody_past B human s cur gate
    rw [ht]
    exact List.take_left _ _
  · intro B human fuel s cur gate tr s2 tr2 h
    obtain ⟨t, ht⟩ := runLoop_past B human fuel s cur gate tr s2 tr2 h
    rw [ht]
    exact List.take_left _ _

theorem C4_witness :
    (DiagnosticState.past_steps
        { input := "q", plan := [], past_steps := [("SCADA: a", "result")],
          response := "", ready_for_synthesis := true }).take
        (wState ["SCADA: a"]).past_steps.length
      = (wState ["SCADA: a"]).past_steps :=
  C4_past_steps_append_only.2.2.2.2.2 (wB ["SCADA: a"] ⟨some true, none, none⟩)
    contHuman 5 (wState ["SCADA: a"]) 0 0 []
    { input := "q", plan := [], past_steps := [("SCADA: a", "result")],
      response := "", ready_for_synthesis := true }
    [AgentCall.executor, AgentCall.replanner] (by decide)

/-- Claim C5: if the human issues `quit` at the review gate of any iteration
(any state `s`, any iteration counter, any gate index, any remaining budget
`fuel`), the loop returns immediately — independently of the remaining fuel —
with response exactly "Workflow aborted by human."; the trace gains only this
pass's pre-gate executor/replanner calls and nothing after the quit, and the
post-loop `finishWorkflow` adds no synthesizer call and returns the abort
string unchanged. -/
theorem C5_quit_aborts_immediately (B : AgentBehavior)
    (human : Nat → HumanDecision) (fuel : Nat) (s : DiagnosticState)
    (cur gate : Nat) (tr : List AgentCall)
    (hc : loopCond s cur = true)
    (hr : (passReplanState B s).ready_for_synthesis = false)
    (hresp : (passReplanState B s).response = "")
    (hq : human gate = HumanDecision.quit) :
    runLoop B human (fuel + 1) s cur gate tr
      = some ({ passReplanState B s with response := abortMsg },
              tr ++ ((passExecState B s).2 ++ [AgentCall.replanner])) ∧
    finishWorkflow B { passReplanState B s with response := abortMsg }
        (tr ++ ((passExecState B s).2 ++ [AgentCall.replanner]))
      = (abortMsg, tr ++ ((passExecState B s).2 ++ [AgentCall.replanner])) := by
  have hbody : loopBody B human s cur gate =
      ⟨{ passReplanState B s with response := abortMsg }, cur + 1, gate + 1, true,
        (passExecState B s).2 ++ [AgentCall.replanner]⟩ := by
    have hr' := hr
    have hresp' := hresp
    simp only [passReplanState] at hr' hresp'
    simp only [loopBody, hq]
    rw [if_pos ⟨hr', hresp'⟩]
    simp [passReplanState]
  constructor
  · simp only [runLoop, hc, if_true]
    rw [hbody]
    rfl
  · have hab : (abortMsg == "") = false := by decide
    simp [finishWorkflow, hr, hab]

theorem C5_witness :
    runLoop (wB ["SCADA: a"] noneReplan) quitHuman (4 + 1)
        (wState ["SCADA: a"]) 0 0 []
      = some ({ passReplanState (wB ["SCADA: a"] noneReplan)
                  (wState ["SCADA: a"]) with response := abortMsg },
              [] ++ ((passExecState (wB ["SCADA: a"] noneReplan)
                  (wState ["SCADA: a"])).2 ++ [AgentCall.replanner])) ∧
    finishWorkflow (wB ["SCADA: a"] noneReplan)
        { passReplanState (wB ["SCADA: a"] noneReplan)
            (wState ["SCADA: a"]) with response := abortMsg }
        ([] ++ ((passExecState (wB ["SCADA: a"] noneReplan)
            (wState ["SCADA: a"])).2 ++ [AgentCall.replanner]))
      = (abortMsg,
         [] ++ ((passExecState (wB ["SCADA: a"] noneReplan)
            (wState ["SCADA: a"])).2 ++ [AgentCall.replanner])) :=
  C5_quit_aborts_immediately (wB ["SCADA: a"] noneReplan) quitHuman 4
    (wState ["SCADA: a"]) 0 0 [] (by decide) (by decide) (by decide) rfl

/-- Claim C1: for every initial query the workflow returns a plain-text
string and no exception escapes (the embedding is total and every exit path
produces `some`): provided the human never issues `edit` (which is the one
directive that resets the iteration counter), a fuel budget of
`max_iterations` passes always suffices for the loop to exit — the loop
terminates within the iteration budget — and the returned string is
non-empty whatever the agents do, given the spec-modelled Synthesizer
contract that a returned response is non-empty (every fixed fallback string
is non-empty on its own). -/
theorem C1_returns_nonempty_within_budget (B : AgentBehavior)
    (human : Nat → HumanDecision) (fuel : Nat) (q : String)
    (hEdit : ∀ g np, human g ≠ HumanDecision.edit np)
    (hSynth : ∀ s r, B.synthesize_response s = some r → r ≠ "")
    (hFuel : max_iterations ≤ fuel) :
    (run_diagnostic_workflow B human fuel q).isSome = true ∧
    (∀ resp tr, run_diagnostic_workflow B human fuel q = some (resp, tr) →
      resp ≠ "") := by
  constructor
  · simp only [run_diagnostic_workflow]
    by_cases hp : B.create_plan (initState q) = []
    · simp [hp]
    · rw [if_neg hp]
      have htot := runLoop_total B human hEdit fuel
        { initState q with plan := B.create_plan (initState q) } 0 0
        [AgentCall.planner] (by omega)
      obtain ⟨⟨s2, tr⟩, hrun⟩ := Option.isSome_iff_exists.mp htot
      rw [hrun]
      rfl
  · intro resp tr h
    simp only [run_diagnostic_workflow] at h
    by_cases hp : B.create_plan (initState q) = []
    · rw [if_pos hp] at h
      simp only [Option.some.injEq, Prod.mk.injEq] at h
      rw [← h.1]
      decide
    · rw [if_neg hp] at h
      cases hrun : runLoop B human fuel
          { initState q with plan := B.create_plan (initState q) } 0 0
          [AgentCall.planner] with
      | none => rw [hrun] at h; exact absurd h (by simp)
      | some out =>
          obtain ⟨s2, tr2⟩ := out
          rw [hrun] at h
          simp only [Option.some.injEq] at h
          have h1 : (finishWorkflow B s2 tr2).1 = resp := by rw [h]
          rw [← h1]
          exact finishWorkflow_ne_empty B s2 tr2 hSynth

theorem C1_witness :
    (run_diagnostic_workflow (wB ["SCADA: a"] ⟨some true, none, none⟩)
        contHuman 5 "boiler temp").isSome = true ∧
    "SYNTH" ≠ "" :=
  ⟨(C1_returns_nonempty_within_budget (wB ["SCADA: a"] ⟨some true, none, none⟩)
      contHuman 5 "boiler temp" (fun _ _ h => HumanDecision.noConfusion h)
      (fun _ r h => by rw [← Option.some.inj h]; decide) (by decide)).1,
   (C1_returns_nonempty_within_budget (wB ["SCADA: a"] ⟨some true, none, none⟩)
      contHuman 5 "boiler temp" (fun _ _ h => HumanDecision.noConfusion h)
      (fun _ r h => by rw [← Option.some.inj h]; decide) (by decide)).2
     "SYNTH"
     [AgentCall.planner, AgentCall.executor, AgentCall.replanner,
      AgentCall.synthesizer] (by decide)⟩

theorem runLoop_cont_exhausts (B : AgentBehavior) (human : Nat → HumanDecision)
    (hR : ∀ s, B.decide_next_action s = ⟨none, none, none⟩)
    (hH : ∀ g, human g = HumanDecision.cont) :
    ∀ (fuel : Nat) (s : DiagnosticState) (cur gate : Nat) (tr : List AgentCall),
      s.ready_for_synthesis = false → s.response = "" →
      max_iterations - cur ≤ s.plan.length →
      max_iterations ≤ cur + fuel →
      ∃ s', runLoop B human fuel s cur gate tr
          = some (s', tr ++ contPassCalls (max_iterations - cur))
        ∧ s'.ready_for_synthesis = false ∧ s'.response = "" := by
  intro fuel
  induction fuel with
  | zero =>
      intro s cur gate tr hr hresp hlen hle
      have h0 : max_iterations - cur = 0 := by omega
      have hd : decide (cur < max_iterations) = false := decide_eq_false (by omega)
      refine ⟨s, ?_, hr, hresp⟩
      simp [runLoop, loopCond, hd, h0, contPassCalls]
  | succ fuel ih =>
      intro s cur gate tr hr hresp hlen hle
      by_cases hcur : cur < max_iterations
      · have hplan : s.plan ≠ [] := by
          intro hnil
          rw [hnil] at hlen
          simp at hlen
          omega
        have hforce : forceReadyIfPlanEmpty s = s := by
          simp [forceReadyIfPlanEmpty, hplan]
        have hpe : passExecState B s = (execPhase B s, [AgentCall.executor]) := by
          simp [passExecState, hforce, hplan]
        have hready2 : (execPhase B s).ready_for_synthesis = false := hr
        have hresp2 : (execPhase B s).response = "" := hresp
        have hs2 : replanPhase B (execPhase B s) = execPhase B s := by
          rw [replanPhase, hR]
          rfl
        have hb : loopBody B human s cur gate =
            ⟨execPhase B s, cur + 1, gate + 1, false,
             [AgentCall.executor, AgentCall.replanner]⟩ := by
          simp only [loopBody, hpe, hs2, hH gate]
          rw [if_pos ⟨hready2, hresp2⟩]
          rfl
        have hc : loopCond s cur = true := by
          simp [loopCond, hr, hresp, hcur]
        have hstep : runLoop B human (fuel + 1) s cur gate tr
            = runLoop B human fuel (execPhase B s) (cur + 1) (gate + 1)
                (tr ++ [AgentCall.executor, AgentCall.replanner]) := by
          rw [runLoop, if_pos hc, hb]
          rfl
        have htail : (execPhase B s).plan.length = s.plan.length - 1 := by
          cases hpl : s.plan with
          | nil => exact absurd hpl hplan
          | cons a l => simp [execPhase, execPop, execRecord, hpl]
        obtain ⟨s', hrun, hr', hresp'⟩ := ih (execPhase B s) (cur + 1) (gate + 1)
            (tr ++ [AgentCall.executor, AgentCall.replanner]) hready2 hresp2
            (by rw [htail]; omega) (by omega)
        refine ⟨s', ?_, hr', hresp'⟩
        rw [hstep, hrun]
        have hn : max_iterations - cur = (max_iterations - (cur + 1)) + 1 := by omega
        rw [hn]
        simp [contPassCalls]
      · have h0 : max_iterations - cur = 0 := by omega
        have hd : decide (cur < max_iterations) = false := decide_eq_false (by omega)
        refine ⟨s, ?_, hr, hresp⟩
        simp [runLoop, loopCond, hd, h0, contPassCalls]

/-- Claim C7 is false on the code: a concrete run in which the Replanner
never sets `ready_for_synthesis` or `response` (it always returns the empty
update `{}`) and the human always answers continue, yet the run does *not*
make 5 passes and does *not* return the inconclusive fallback. The initial
plan has a single step; when the plan runs empty in the second pass, the
orchestrator forces `ready_for_synthesis = true` (lines 122–124), exits the
loop after 2 passes, and *calls the Synthesizer*, returning its answer
"SYNTH" — not the inconclusive-completion message. -/
theorem C7_counterexample :
    run_diagnostic_workflow (wB ["SCADA: a"] noneReplan) contHuman 5 "q"
      = some ("SYNTH",
              [AgentCall.planner, AgentCall.executor, AgentCall.replanner,
               AgentCall.replanner, AgentCall.synthesizer]) ∧
    "SYNTH" ≠ inconclusiveMsg := by decide

/-- Claim C7, amended: if the Replanner never sets `ready_for_synthesis` or
`response` (always the empty update), the human always continues, *and the
initial plan is long enough that it never runs empty* (at least
`max_iterations` steps), then the loop runs exactly `max_iterations = 5`
passes — the trace records exactly 5 executor and 5 replanner calls after
the planner — and the run returns the fixed inconclusive fallback string
without ever calling the Synthesizer (no synthesizer tag in the trace). -/
theorem C7_amended_exhaustion_with_standing_plan (B : AgentBehavior)
    (human : Nat → HumanDecision) (fuel : Nat) (q : String)
    (hR : ∀ s, B.decide_next_action s = ⟨none, none, none⟩)
    (hH : ∀ g, human g = HumanDecision.cont)
    (hPlan : max_iterations ≤ (B.create_plan (initState q)).length)
    (hFuel : max_iterations ≤ fuel) :
    run_diagnostic_workflow B human fuel q
      = some (inconclusiveMsg,
              [AgentCall.planner] ++ contPassCalls max_iterations) := by
  have hne : B.create_plan (initState q) ≠ [] := by
    intro h
    rw [h] at hPlan
    simp [max_iterations] at hPlan
  simp only [run_diagnostic_workflow]
  rw [if_neg hne]
  obtain ⟨s', hrun, hr', hresp'⟩ := runLoop_cont_exhausts B human hR hH fuel
      { initState q with plan := B.create_plan (initState q) } 0 0
      [AgentCall.planner] rfl rfl (by simpa using hPlan) (by omega)
  rw [hrun]
  simp [finishWorkflow, hr', hresp']

theorem C7_amended_witness :
    run_diagnostic_workflow
        (wB ["SCADA: a", "SCADA: b", "SCADA: c", "SCADA: d", "SCADA: e"]
          noneReplan) contHuman 5 "q"
      = some (inconclusiveMsg,
              [AgentCall.planner] ++ contPassCalls max_iterations) :=
  C7_amended_exhaustion_with_standing_plan
    (wB ["SCADA: a", "SCADA: b", "SCADA: c", "SCADA: d", "SCADA: e"] noneReplan)
    contHuman 5 "q" (fun _ => rfl) (fun _ => rfl) (by decide) (by decide)

theorem exceptOk_exists {ε α : Type} {e : Except ε α} (h : e.isOk = true) :
    ∃ v, e = Except.ok v := by
  cases e with
  | error m => simp [Except.isOk, Except.toBool] at h
  | ok v => exact ⟨v, rfl⟩

theorem excBindOk {α β : Type} (v : α) (f : α → Except String β) :
    (Except.ok v >>= f) = f v := rfl

theorem fallback_response_isOk (env : ScadaEnv) (nl : String)
    (hPost : ∀ r, (env.post r).isOk = true) :
    (fallback_response env nl).isOk = true := by
  unfold fallback_response
  obtain ⟨v, hv⟩ := exceptOk_exists
    (hPost { system := "You are a SCADA diagnostics assistant.",
             user := nl, temperature := 2/5 })
  rw [hv, excBindOk]
  split <;> rfl

theorem explain_data_isOk (env : ScadaEnv) (ds : String)
    (hPost : ∀ r, (env.post r).isOk = true) :
    (explain_data_with_llm env ds).isOk = true := by
  unfold explain_data_with_llm
  obtain ⟨v, hv⟩ := exceptOk_exists
    (hPost { system := "You are a helpful diagnostics assistant. Analyze the SCADA data and explain it simply.",
             user := "Explain this data:\n\n" ++ ds, temperature := 3/10 })
  rw [hv, excBindOk]
  split <;> rfl

theorem query_scada_eq_none (env : ScadaEnv) (q : String)
    (hbq : build_query (pyLower q) = none) :
    query_scada env q = fallback_response env q := by
  simp only [query_scada, hbq]

theorem query_scada_eq_some (env : ScadaEnv) (q sqlq : String)
    (hbq : build_query (pyLower q) = some sqlq) :
    query_scada env q
      = match env.read_sql sqlq with
        | Except.error e => Except.ok ("❌ SQL Query Error: " ++ e)
        | Except.ok df =>
            if df.empty then Except.ok "⚠️ No data matched your query."
            else explain_data_with_llm env df.to_string := by
  simp only [query_scada, hbq]

/-- Claim C8 is false as stated: `query_scada` can let an exception escape
its boundary. In an environment whose HTTP client raises (say no network —
`requests.post` has no surrounding `try`), the question "hello there" —
which matches no metric keyword and therefore takes the LLM fallback path —
makes `query_scada` propagate the `ConnectionError` to its caller instead of
returning a string. -/
theorem C8_counterexample :
    query_scada scadaCexEnv "hello there" = Except.error "ConnectionError" ∧
    (query_scada scadaCexEnv "hello there").isOk = false := by
  constructor <;> rfl

/-- Claim C8, amended: *provided the HTTP client calls themselves do not
raise* (non-200 statuses are fine — they are turned into error strings),
`query_scada` returns a string on every question: when no metric keyword
matches, the result is exactly the general-purpose LLM fallback over the raw
question, and when the database read raises, the exception is caught and
returned as the "❌ SQL Query Error: ..." string. The only uncaught
exceptions of the source are those of `requests.post` inside
`fallback_response` and `explain_data_with_llm` (see the counterexample). -/
theorem C8_amended_no_throw_if_http_ok (env : ScadaEnv) (q : String)
    (hPost : ∀ r, (env.post r).isOk = true) :
    (query_scada env q).isOk = true ∧
    (build_query (pyLower q) = none →
      query_scada env q = fallback_response env q) ∧
    (∀ sqlq e, build_query (pyLower q) = some sqlq →
      env.read_sql sqlq = Except.error e →
      query_scada env q = Except.ok ("❌ SQL Query Error: " ++ e)) := by
  refine ⟨?_, ?_, ?_⟩
  · cases hbq : build_query (pyLower q) with
    | none =>
        rw [query_scada_eq_none env q hbq]
        exact fallback_response_isOk env q hPost
    | some sqlq =>
        rw [query_scada_eq_some env q sqlq hbq]
        cases hsql : env.read_sql sqlq with
        | error e => rfl
        | ok df =>
            cases hdf : df.empty with
            | true =>
                simp only [hdf, if_true]
                rfl
            | false => simp [hdf, explain_data_isOk env df.to_string hPost]
  · intro hbq
    exact query_scada_eq_none env q hbq
  · intro sqlq e hbq hsql
    rw [query_scada_eq_some env q sqlq hbq, hsql]

theorem C8_amended_witness :
    (query_scada scadaOkEnv "boiler temp").isOk = true ∧
    query_scada scadaOkEnv "hello there" = fallback_response scadaOkEnv "hello there" ∧
    query_scada scadaOkEnv "boiler temp"
      = Except.ok ("❌ SQL Query Error: " ++ "boom") :=
  ⟨(C8_amended_no_throw_if_http_ok scadaOkEnv "boiler temp" (fun _ => rfl)).1,
   (C8_amended_no_throw_if_http_ok scadaOkEnv "hello there" (fun _ => rfl)).2.1
     (by decide),
   (C8_amended_no_throw_if_http_ok scadaOkEnv "boiler temp" (fun _ => rfl)).2.2
     ("SELECT * FROM scada_logs WHERE metric_name=" ++ squo
       ++ "temperature_celsius" ++ squo ++ " ORDER BY timestamp DESC LIMIT 10;")
     "boom" (by decide) rfl⟩
